import Mathlib

/-!
Verification of the `arch-pi-script.py` provisioning driver.

The script is a linear sequence of provisioning steps.  We embed the parts of
it that the specification speaks about as pure Lean functions:

* the filesystem is a map from path strings to optional file contents;
* the process environment is a map from variable names to optional values;
* a step that shells out is modelled as the list of argument vectors it issues;
* the command runner is modelled as a function of the completed process data.
-/

namespace ArchPiScript

/-- A filesystem: each path either holds a file with some content or nothing. -/
abbrev FS := String → Option String

/-- A process environment: each variable either has some value or is unset. -/
abbrev Env := String → Option String

/-! ## String helpers

Models of the Python string operations the script uses (`in`, `strip`,
`isdigit`, `int`, `lower`, `split(",")`), written over the character list of
the string so that they reduce inside the kernel. -/

/-- Whether the first character list is an initial segment of the second. -/
def leadsCL : List Char → List Char → Bool
  | [], _ => true
  | _ :: _, [] => false
  | a :: as, b :: bs => a = b && leadsCL as bs

/-- Whether `pat` occurs somewhere inside `l`. -/
def subOcc (pat : List Char) : List Char → Bool
  | [] => leadsCL pat []
  | c :: rest => leadsCL pat (c :: rest) || subOcc pat rest

/-- Model of Python's substring test `pat in s`. -/
def strContains (s pat : String) : Bool := subOcc pat.data s.data

/-- Model of Python's `str.strip`: drop whitespace from both ends. -/
def pyStrip (s : String) : String :=
  String.mk (((s.data.dropWhile Char.isWhitespace).reverse.dropWhile
    Char.isWhitespace).reverse)

/-- The data of a finished child process: return code and captured streams. -/
structure CompletedProcess where
  returncode : Int
  stdout : String
  stderr : String
  deriving Repr, DecidableEq

/-- Model of `subprocess.run(command, check=True, ...)` given the outcome of
the child process: ok on exit code 0, an exception value otherwise. -/
def subprocessRun (o : CompletedProcess) : Except CompletedProcess CompletedProcess :=
  if o.returncode = 0 then Except.ok o else Except.error o

/-- Model of `run_command` (lines 7-16): the returned object together with the
single `write_log` entry the call makes.  The `except` branch catches the
error, so the function is total: no exception escapes to the caller. -/
def run_command (o : CompletedProcess) : CompletedProcess × List String :=
  match subprocessRun o with
  | Except.ok r => (r, ["Command output : " ++ r.stdout])
  | Except.error e => (e, ["Command error: " ++ e.stderr])

/-! ## Log rotation (lines 31-39) -/

/-- The canonical log path, `logs/arch-pi-script.log` (line 34). -/
def logfile : String := "logs/arch-pi-script.log"

/-- Model of the rotation block (lines 36-39): if a file exists at the
canonical path it is renamed to `logfile_<timestamp>` (`os.rename`, which
replaces any file already at the destination), and then `open(logfile, "w")`
creates a fresh empty file at the canonical path.  The timestamp string comes
from `date +%Y%m%d-%H%M%S`. -/
def rotateLog (fs : FS) (ts : String) : FS :=
  if (fs logfile).isSome then
    fun p =>
      if p = logfile then some ""
      else if p = logfile ++ "_" ++ ts then fs logfile
      else fs p
  else
    fun p => if p = logfile then some "" else fs p

/-! ## Startup trace (lines 31-46)

After the log setup the top level goes straight into the system-update
commands; it consults the filesystem only for the `logs` folder and the log
file itself.  The `date` child process is issued only when the old log file
exists (line 37). -/

/-- The first package-manager command the script issues (line 45). -/
def pacmanUpdateCmd : List String := ["sudo", "pacman", "-Syu", "--noconfirm"]

/-- The second package-manager command the script issues (line 46). -/
def yayUpdateCmd : List String := ["sudo", "yay", "-Syu", "--noconfirm"]

/-- The auxiliary files the script later uses from its working directory
(`neovimInit.sh`, `gnomeConfig.sh`, `zshrc`, `kitty.conf`,
`current-theme.conf`). -/
def requiredAuxFiles : List String :=
  ["neovimInit.sh", "gnomeConfig.sh", "zshrc", "kitty.conf", "current-theme.conf"]

/-- The commands issued by the top level from the log setup through the first
package-manager commands (lines 36-46), as a function of the working-directory
filesystem. -/
def startupCommands (fs : FS) : List (List String) :=
  (if (fs logfile).isSome then [["date", "+%Y%m%d-%H%M%S"]] else []) ++
    [pacmanUpdateCmd, yayUpdateCmd]

/-! ## Runtime identity (lines 48-50) -/

/-- Model of `current_username = os.environ.get("USER", "default_user")`
(line 49). -/
def current_username (env : Env) : String := (env "USER").getD "default_user"

/-- Spec-side rendering of the claimed resolution order: take the
escalation-source variable (`SUDO_USER`) when set, else the current-user
variable, else the fixed default.  Stated for comparison with
`current_username`; it is not what the code does. -/
def specResolvedUser (env : Env) : String :=
  match env "SUDO_USER" with
  | some u => u
  | none => (env "USER").getD "default_user"

/-! ## Git identity step (lines 69-82)

`ISTEST` is a constant set to `True` in the source; the interactive branch is
only reachable when it is `False`.  `get_user_input` strips the raw input
(line 23).  The step is modelled as the resulting identity together with the
list of prompts it issues. -/

/-- The hardcoded flag from line 70 of the source. -/
def ISTEST : Bool := true

/-- A git user identity: configured name and email. -/
structure GitIdentity where
  name : String
  email : String
  deriving Repr, DecidableEq

/-- Model of the identity-configuration step (lines 70-76), parametrised by
the flag it branches on and by what the operator would type at the two
prompts.  Returns the chosen identity and the prompts actually issued. -/
def gitIdentityStep (istest : Bool) (nameInput emailInput : String) :
    GitIdentity × List String :=
  if istest then
    ({ name := "entish84", email := "entishthoughts@outlook.com" }, [])
  else
    ({ name := pyStrip nameInput, email := pyStrip emailInput },
      ["Enter your GIT user name: ", "Enter your GIT user email: "])

/-! ## SSH key generation step (lines 100-119) -/

/-- `ssh_key_dir` (line 103). -/
def ssh_key_dir (u : String) : String := "/home/" ++ u ++ "/.ssh"

/-- `ssh_key_path` (line 108). -/
def ssh_key_path (u : String) : String := ssh_key_dir u ++ "/id_ed25519"

/-- The key-generation command of line 115, taking the configured git email as
the key comment after `-C`. -/
def sshKeygenCmd (email u : String) : List String :=
  ["ssh-keygen", "-t", "ed25519", "-C", email, "-f", ssh_key_path u, "-N", ""]

/-- Model of the guarded key-generation step (lines 111-119): when a file
exists at the key path nothing is issued, otherwise `ssh-keygen` and the
ssh-agent line run. -/
def sshKeyGenStep (fs : FS) (email u : String) : List (List String) :=
  if (fs (ssh_key_path u)).isSome then []
  else [sshKeygenCmd email u,
        ["echo", "$SSH_AGENT_PID", "&&", "ssh-add", ssh_key_path u]]

/-! ## Shell setup steps (lines 144-173) -/

/-- Model of the zsh-package guard and install (lines 147-157): skip when a
zsh binary exists at either well-known path. -/
def zshInstallCmds (fs : FS) : List (List String) :=
  if (fs "/bin/zsh").isSome || (fs "/usr/bin/zsh").isSome then []
  else [["sudo", "pacman", "-S", "zsh", "--noconfirm", "--needed"]]

/-- `ohmyzsh_dir` (line 160). -/
def ohmyzsh_dir (u : String) : String := "/home/" ++ u ++ "/.oh-my-zsh"

/-- Model of the Oh My Zsh guard and install (lines 161-168). -/
def ohMyZshInstallCmds (fs : FS) (u : String) : List (List String) :=
  if (fs (ohmyzsh_dir u)).isSome then []
  else [["bash", "-c",
         "$(curl -fsSL https://raw.githubusercontent.com/ohmyzsh/ohmyzsh/master/tools/install.sh) --unattended"]]

/-- Model of the default-shell change (line 171): the `chsh` command is issued
unconditionally, with no guard around it. -/
def defaultShellCmds (u : String) : List (List String) :=
  [["sudo", "chsh", "-s", "/bin/zsh", u]]

/-! ## Editor starter-config clone (lines 229-233) -/

/-- `lazyvim_config_dir` (line 229). -/
def lazyvim_config_dir (u : String) : String := "/home/" ++ u ++ "/.config/nvim"

/-- Model of the guarded LazyVim starter clone (lines 230-232). -/
def lazyvimCloneCmds (fs : FS) (u : String) : List (List String) :=
  if (fs (lazyvim_config_dir u)).isSome then []
  else [["git", "clone", "https://github.com/LazyVim/starter", lazyvim_config_dir u]]

/-! ## PATH line in .zshrc (lines 278-288) -/

/-- The marker line checked on line 281 of the source. -/
def misePathLine : String := "PATH=$PATH:$HOME/.local/bin"

/-- Model of the guarded append (lines 281-288): the write happens only when
the marker line is not already in the `.zshrc` content. -/
def zshrcPathAppendWrites (zshrcContent : String) : List String :=
  if strContains zshrcContent misePathLine then []
  else ["\nexport PATH=$PATH:$HOME/.local/bin\n"]

/-! ## Desktop-environment branch (lines 436-451) -/

/-- `desktop_env_check = os.environ.get("XDG_CURRENT_DESKTOP", "")` (line 438). -/
def desktop_env_check (env : Env) : String := (env "XDG_CURRENT_DESKTOP").getD ""

/-- The branch condition of line 439: `"GNOME" in desktop_env_check`. -/
def gnomeDetected (env : Env) : Bool := strContains (desktop_env_check env) "GNOME"

/-- Model of the desktop-configuration step (lines 439-451): the GNOME
sub-step runs exactly when the environment-variable test succeeds. -/
def desktopConfigCmds (env : Env) : List (List String) :=
  if gnomeDetected env then [["sh", "gnomeConfig.sh"]] else []

/-- Spec-side rendering of the claimed detection for the GNOME branch: the
desktop-session variable test, or a probe for GNOME-shell tooling on the
search path (the probe outcome is the boolean argument).  Stated for
comparison with `gnomeDetected`; the code has no such probe. -/
def specGnomeDetected (env : Env) (gnomeShellOnPath : Bool) : Bool :=
  gnomeDetected env || gnomeShellOnPath

/-! ## Application selection (lines 378-392) -/

/-- Model of one backup-then-copy block: the resulting filesystem. -/
def backupAndReplace (fs : FS) (target ts newContent : String) : FS :=
  match fs target with
  | some c => fun p =>
      if p = target then some newContent
      else if p = target ++ ".backup" ++ ts then some c
      else fs p
  | none => fun p => if p = target then some newContent else fs p

/-- `zshrc_path` (line 262). -/
def zshrc_path (u : String) : String := "/home/" ++ u ++ "/.zshrc"

/-- `kitty_config_path` (line 420). -/
def kitty_config_path (u : String) : String :=
  "/home/" ++ u ++ "/.config/kitty/kitty.conf"

/-- The `.zshrc` replacement block (lines 262-268). -/
def zshrcReplaceStep (fs : FS) (u ts newContent : String) : FS :=
  backupAndReplace fs (zshrc_path u) ts newContent

/-- The `kitty.conf` replacement block (lines 420-425). -/
def kittyReplaceStep (fs : FS) (u ts newContent : String) : FS :=
  backupAndReplace fs (kitty_config_path u) ts newContent

/-! ## Helper lemmas -/

/-- A string extended by a non-empty middle part differs from the original. -/
theorem append_mid_ne_self (s mid ts : String) (h : 0 < mid.length) :
    s ++ mid ++ ts ≠ s := by
  intro he
  have hl := congrArg String.length he
  rw [String.length_append, String.length_append] at hl
  omega

/-- C3: for every command outcome, `run_command` returns a result carrying the
exit status and the captured streams, never escapes with an exception on a
failed command, and writes exactly one log entry: the captured stdout on
success, the captured stderr on failure.  (The model is a total function of
the child-process outcome, reflecting the synchronous `subprocess.run` call
and the `except` clause that catches `CalledProcessError`.) -/
theorem c3_run_command_contract (o : CompletedProcess) :
    (run_command o).1 = o ∧
    (run_command o).2.length = 1 ∧
    (o.returncode = 0 → (run_command o).2 = ["Command output : " ++ o.stdout]) ∧
    (o.returncode ≠ 0 → (run_command o).2 = ["Command error: " ++ o.stderr]) := by
  by_cases h : o.returncode = 0 <;> simp [run_command, subprocessRun, h]

/-- C3 witness: a succeeding and a failing invocation, via
`c3_run_command_contract`. -/
theorem c3_run_command_contract_witness :
    (run_command ⟨0, "ok", ""⟩).2 = ["Command output : " ++ "ok"] ∧
    (run_command ⟨1, "", "boom"⟩).2 = ["Command error: " ++ "boom"] :=
  ⟨(c3_run_command_contract ⟨0, "ok", ""⟩).2.2.1 rfl,
   (c3_run_command_contract ⟨1, "", "boom"⟩).2.2.2 (by decide)⟩

/-! ## Claim C1 -/

/-- A working directory with no files at all: every auxiliary file is absent. -/
def emptyFS : FS := fun _ => none

/-- C1 counterexample: even with every required auxiliary file absent from the
working directory, the top level issues the mutating `pacman -Syu` command; no
preflight check or abort exists in the code. -/
theorem c1_no_preflight_counterexample :
    (requiredAuxFiles.all fun f => (emptyFS f).isNone) = true ∧
    pacmanUpdateCmd ∈ startupCommands emptyFS := by decide

/-- C1 amended: the driver performs no preflight file-existence check: for
every working-directory state, the startup trace contains the package-manager
update commands, and the trace depends only on the log file's presence, not on
any auxiliary file. -/
theorem c1_startup_unconditional (fs fs2 : FS) (h : fs logfile = fs2 logfile) :
    pacmanUpdateCmd ∈ startupCommands fs ∧
    yayUpdateCmd ∈ startupCommands fs ∧
    startupCommands fs = startupCommands fs2 := by
  unfold startupCommands
  rw [h]
  refine ⟨?_, ?_, rfl⟩ <;> cases h2 : (fs2 logfile).isSome <;> simp [h2]

/-- C1 amended witness: the startup trace on an empty working directory, via
`c1_startup_unconditional`. -/
theorem c1_startup_unconditional_witness :
    pacmanUpdateCmd ∈ startupCommands emptyFS :=
  (c1_startup_unconditional emptyFS emptyFS rfl).1

/-! ## Claim C4 -/

/-- Filesystem for the C4 counterexample: an old log at the canonical path and
an earlier rotated log already sitting at the timestamped backup path. -/
def c4fs : FS := fun p =>
  if p = logfile then some "run-A"
  else if p = logfile ++ "_" ++ "20260101-000000" then some "run-B"
  else none

/-- C4 counterexample: when a file already exists at the timestamped backup
path (two runs in the same second), `os.rename` replaces it, so the
pre-existing log content `run-B` at that path is overwritten and lost. -/
theorem c4_rotation_counterexample :
    c4fs (logfile ++ "_" ++ "20260101-000000") = some "run-B" ∧
    rotateLog c4fs "20260101-000000" (logfile ++ "_" ++ "20260101-000000") =
      some "run-A" := by decide

/-- C4 amended: when a log file exists at the canonical path, rotation renames
it to the `_<timestamp>`-suffixed path (overwriting anything already there)
and creates a fresh empty file at the canonical path; all other paths are
untouched, so the canonical file's own content is never lost. -/
theorem c4_rotation_amended (fs : FS) (ts c : String) (h : fs logfile = some c) :
    rotateLog fs ts logfile = some "" ∧
    rotateLog fs ts (logfile ++ "_" ++ ts) = some c ∧
    (∀ p, p ≠ logfile → p ≠ logfile ++ "_" ++ ts → rotateLog fs ts p = fs p) := by
  have hne : logfile ++ "_" ++ ts ≠ logfile :=
    append_mid_ne_self logfile "_" ts (by decide)
  unfold rotateLog
  rw [h]
  refine ⟨by simp, ?_, ?_⟩
  · simp only [Option.isSome_some, if_true]
    rw [if_neg hne]
  · intro p hp1 hp2
    simp only [Option.isSome_some, if_true]
    rw [if_neg hp1, if_neg hp2]

/-- Filesystem for the C4 witness: only the canonical log file exists. -/
def c4wfs : FS := fun p => if p = logfile then some "old" else none

/-- C4 amended witness: rotating a concrete filesystem, via
`c4_rotation_amended`. -/
theorem c4_rotation_amended_witness :
    rotateLog c4wfs "20270101-121212" logfile = some "" ∧
    rotateLog c4wfs "20270101-121212" (logfile ++ "_" ++ "20270101-121212") =
      some "old" :=
  ⟨(c4_rotation_amended c4wfs "20270101-121212" "old" (by decide)).1,
   (c4_rotation_amended c4wfs "20270101-121212" "old" (by decide)).2.1⟩

/-! ## Claim C5 -/

/-- C5: when a private key already exists at the canonical path, the SSH step
issues no command at all (in particular no key generation); when no key
exists, the issued `ssh-keygen` command carries the configured git email as
the key comment after `-C`. -/
theorem c5_ssh_key_guard (fs : FS) (email u : String) :
    ((fs (ssh_key_path u)).isSome = true → sshKeyGenStep fs email u = []) ∧
    ((fs (ssh_key_path u)).isSome = false →
      sshKeygenCmd email u ∈ sshKeyGenStep fs email u ∧
      sshKeygenCmd email u =
        ["ssh-keygen", "-t", "ed25519", "-C", email, "-f", ssh_key_path u, "-N", ""]) := by
  constructor <;> intro h <;> simp [sshKeyGenStep, h, sshKeygenCmd]

/-- Filesystem for the C5 witness: the private key is present. -/
def c5fsHasKey : FS := fun p => if p = ssh_key_path "pi" then some "KEY" else none

/-- C5 witness: both branches of the guard at concrete filesystems, via
`c5_ssh_key_guard`. -/
theorem c5_ssh_key_guard_witness :
    sshKeyGenStep c5fsHasKey "dev@example.com" "pi" = [] ∧
    sshKeygenCmd "dev@example.com" "pi" ∈ sshKeyGenStep emptyFS "dev@example.com" "pi" :=
  ⟨(c5_ssh_key_guard c5fsHasKey "dev@example.com" "pi").1 (by decide),
   ((c5_ssh_key_guard emptyFS "dev@example.com" "pi").2 (by decide)).1⟩

/-! ## Claim C6 -/

/-- A fully provisioned machine for the C6 counterexample: SSH key, zsh
binary, Oh My Zsh directory and LazyVim config directory all present. -/
def provisionedFS : FS := fun p =>
  if p = ssh_key_path "pi" then some "KEY"
  else if p = "/bin/zsh" then some "ELF"
  else if p = ohmyzsh_dir "pi" then some "DIR"
  else if p = lazyvim_config_dir "pi" then some "DIR"
  else none

/-- A `.zshrc` content that already carries the marker PATH line. -/
def provisionedZshrc : String := "export PATH=$PATH:$HOME/.local/bin\n"

/-- C6 counterexample: on a fully provisioned machine every listed guard is
satisfied and the guarded steps do nothing, yet the default-shell change step
still issues its mutating `chsh` command - it has no idempotency guard, so a
second run does not perform zero duplicate actions for the claimed set. -/
theorem c6_chsh_unguarded_counterexample :
    sshKeyGenStep provisionedFS "dev@example.com" "pi" = [] ∧
    zshInstallCmds provisionedFS = [] ∧
    ohMyZshInstallCmds provisionedFS "pi" = [] ∧
    lazyvimCloneCmds provisionedFS "pi" = [] ∧
    zshrcPathAppendWrites provisionedZshrc = [] ∧
    defaultShellCmds "pi" = [["sudo", "chsh", "-s", "/bin/zsh", "pi"]] := by decide

/-- C6 amended: SSH key generation, zsh and Oh My Zsh installation, the
LazyVim starter clone and the PATH-line append all check their guards before
acting and do nothing on a fully provisioned machine, and the GNOME branch
checks its detection guard; the default-shell change, however, runs
unconditionally and issues `chsh` on every run. -/
theorem c6_guards_amended (fs : FS) (env : Env) (email u zc : String)
    (h1 : (fs (ssh_key_path u)).isSome = true)
    (h2 : (fs "/bin/zsh").isSome = true)
    (h3 : (fs (ohmyzsh_dir u)).isSome = true)
    (h4 : (fs (lazyvim_config_dir u)).isSome = true)
    (h5 : strContains zc misePathLine = true)
    (h6 : gnomeDetected env = false) :
    sshKeyGenStep fs email u = [] ∧
    zshInstallCmds fs = [] ∧
    ohMyZshInstallCmds fs u = [] ∧
    lazyvimCloneCmds fs u = [] ∧
    zshrcPathAppendWrites zc = [] ∧
    desktopConfigCmds env = [] ∧
    defaultShellCmds u = [["sudo", "chsh", "-s", "/bin/zsh", u]] := by
  simp [sshKeyGenStep, zshInstallCmds, ohMyZshInstallCmds, lazyvimCloneCmds,
    zshrcPathAppendWrites, desktopConfigCmds, defaultShellCmds,
    h1, h2, h3, h4, h5, h6]

/-- Environment whose desktop-session variable does not mention GNOME. -/
def kdeEnv : Env := fun v =>
  if v = "XDG_CURRENT_DESKTOP" then some "KDE" else none

/-- C6 amended witness: a fully provisioned concrete machine, via
`c6_guards_amended`. -/
theorem c6_guards_amended_witness :
    defaultShellCmds "pi" = [["sudo", "chsh", "-s", "/bin/zsh", "pi"]] ∧
    sshKeyGenStep provisionedFS "dev2@example.com" "pi" = [] := by
  have h := c6_guards_amended provisionedFS kdeEnv "dev2@example.com" "pi"
    provisionedZshrc (by decide) (by decide) (by decide) (by decide)
    (by decide) (by decide)
  exact ⟨h.2.2.2.2.2.2, h.1⟩

/-! ## Claim C7 -/

/-- Environment for the C7 counterexample: a sudo session where the
escalation-source variable names the invoking user. -/
def sudoEnv : Env := fun v =>
  if v = "SUDO_USER" then some "alice"
  else if v = "USER" then some "root"
  else none

/-- C7 counterexample: with `SUDO_USER=alice` and `USER=root`, the claimed
resolution yields `alice` but the code resolves `root` - the code never
consults the escalation-source variable. -/
theorem c7_identity_counterexample :
    specResolvedUser sudoEnv = "alice" ∧
    current_username sudoEnv = "root" ∧
    ¬ current_username sudoEnv = specResolvedUser sudoEnv := by decide

/-- C7 amended: the runtime identity is resolved from the current-user
environment variable `USER` alone, with the fixed default `default_user` when
it is unset; the value of any other variable is irrelevant. -/
theorem c7_identity_amended (env env2 : Env) (u : String) :
    (env "USER" = some u → current_username env = u) ∧
    (env "USER" = none → current_username env = "default_user") ∧
    (env "USER" = env2 "USER" → current_username env = current_username env2) := by
  refine ⟨fun h => ?_, fun h => ?_, fun h => ?_⟩ <;> simp [current_username, h]

/-- C7 amended witness: the sudo environment resolves to `root`, via
`c7_identity_amended`. -/
theorem c7_identity_amended_witness :
    current_username sudoEnv = "root" :=
  (c7_identity_amended sudoEnv sudoEnv "root").1 (by decide)

/-! ## Claim C8 -/

/-- C8 counterexample: the identity step asks no yes/no question: with
`ISTEST` hardcoded `true`, whatever the operator would supply, the step issues
no prompt at all and yields the fixed placeholder identity. -/
theorem c8_identity_prompt_counterexample :
    ISTEST = true ∧
    gitIdentityStep ISTEST "Operator Name" "operator@example.com" =
      ({ name := "entish84", email := "entishthoughts@outlook.com" }, []) := by
  decide

/-- C8 amended: the choice between the placeholder identity and the free-text
prompts is made by the hardcoded flag `ISTEST` (set to `true` in the source),
not by a runtime yes/no question: with the flag set the step prompts for
nothing and yields the placeholder name and email; only with the flag cleared
would it issue the two free-text prompts and use the operator-supplied strings
(stripped of surrounding whitespace). -/
theorem c8_identity_flag_amended (n e : String) :
    gitIdentityStep ISTEST n e =
      ({ name := "entish84", email := "entishthoughts@outlook.com" }, []) ∧
    gitIdentityStep false n e =
      ({ name := pyStrip n, email := pyStrip e },
        ["Enter your GIT user name: ", "Enter your GIT user email: "]) :=
  ⟨rfl, rfl⟩

/-! ## Claim C9 -/

/-- C9 counterexample: with `XDG_CURRENT_DESKTOP=KDE` but GNOME-shell tooling
available on the search path, the claimed detection succeeds, yet the code
skips the GNOME sub-steps - it never probes the search path. -/
theorem c9_gnome_detection_counterexample :
    specGnomeDetected kdeEnv true = true ∧
    desktopConfigCmds kdeEnv = [] := by decide

/-- C9 amended: the GNOME-specific sub-step runs exactly when the
desktop-session environment variable contains `GNOME`; no probing for
GNOME-shell tooling on the search path takes place. -/
theorem c9_gnome_branch_amended (env : Env) :
    gnomeDetected env = strContains (desktop_env_check env) "GNOME" ∧
    (desktopConfigCmds env = [["sh", "gnomeConfig.sh"]] ↔ gnomeDetected env = true) ∧
    (desktopConfigCmds env = [] ↔ gnomeDetected env = false) := by
  refine ⟨rfl, ?_, ?_⟩ <;> cases h : gnomeDetected env <;>
    simp [desktopConfigCmds, h]

/-! ## Claim C10 -/

/-- C10: whenever a file already exists at the managed target path (`.zshrc`
or `kitty.conf`), the replacement step first moves its content to the
timestamp-suffixed backup path and only then places the new content at the
target, so the pre-existing content is preserved rather than overwritten in
place. -/
theorem c10_backup_before_replace (fs : FS) (u ts newC c : String) :
    (fs (zshrc_path u) = some c →
      zshrcReplaceStep fs u ts newC (zshrc_path u ++ ".backup" ++ ts) = some c ∧
      zshrcReplaceStep fs u ts newC (zshrc_path u) = some newC) ∧
    (fs (kitty_config_path u) = some c →
      kittyReplaceStep fs u ts newC (kitty_config_path u ++ ".backup" ++ ts) = some c ∧
      kittyReplaceStep fs u ts newC (kitty_config_path u) = some newC) := by
  have hz : zshrc_path u ++ ".backup" ++ ts ≠ zshrc_path u :=
    append_mid_ne_self _ _ _ (by decide)
  have hk : kitty_config_path u ++ ".backup" ++ ts ≠ kitty_config_path u :=
    append_mid_ne_self _ _ _ (by decide)
  constructor <;> intro h <;>
    simp [zshrcReplaceStep, kittyReplaceStep, backupAndReplace, h, hz, hk]

/-- Filesystem for the C10 witness: both managed files exist. -/
def c10fs : FS := fun p =>
  if p = zshrc_path "pi" then some "oldzshrc"
  else if p = kitty_config_path "pi" then some "oldkitty"
  else none

/-- C10 witness: both replacement blocks on a concrete filesystem, via
`c10_backup_before_replace`. -/
theorem c10_backup_before_replace_witness :
    zshrcReplaceStep c10fs "pi" "20270101-121212" "newzshrc"
      (zshrc_path "pi" ++ ".backup" ++ "20270101-121212") = some "oldzshrc" ∧
    kittyReplaceStep c10fs "pi" "20270101-121212" "newkitty"
      (kitty_config_path "pi") = some "newkitty" :=
  ⟨((c10_backup_before_replace c10fs "pi" "20270101-121212" "newzshrc" "oldzshrc").1
      (by decide)).1,
   ((c10_backup_before_replace c10fs "pi" "20270101-121212" "newkitty" "oldkitty").2
      (by decide)).2⟩

end ArchPiScript
